import Mathlib

/-!
Verification development for the stock valuation and screening core.

The definitions below are shallow embeddings of the Python source:
machine floats are modelled by exact rationals, report dates by
(year, month) pairs of naturals, Python `None` by `Option`, and an
uncaught Python exception by the `PyR.exn` constructor.  Each
definition mirrors one source function, translated statement by
statement.
-/

namespace StockVal

/-- Result of a Python computation: either a value or an uncaught
exception (ZeroDivisionError, KeyError, IndexError, TypeError, ...). -/
inductive PyR (α : Type) where
  | ok  : α → PyR α
  | exn : PyR α
  deriving DecidableEq, Repr

/-- One entry of the EPS history returned by
`get_indicator_recent_year`: the report date `YYYYMMDD` is modelled by
its year and month (`date[0:4]` and `date[4:6]`), and the value by an
exact rational.  The list is ordered most recent first, which is how
`_calculate_pe_ratio_manually` consumes it (`hist_eps[0]` is the
latest report). -/
structure EpsEntry where
  year  : ℕ
  month : ℕ
  eps   : ℚ
  deriving DecidableEq, Repr

/-- The static-PE selection loop of `_calculate_pe_ratio_manually`
(pe_ratio_collector.py lines 120-126): the first entry whose year
differs from the current calendar year (`str(date[0:4]) ==
str(datetime.now().year)` entries are skipped, first hit breaks). -/
def firstNonCurrentYear (currentYear : ℕ) (hist : List EpsEntry) : Option EpsEntry :=
  hist.find? (fun e => decide (e.year ≠ currentYear))

/-- The TTM selection loop of `_calculate_pe_ratio_manually`
(pe_ratio_collector.py lines 128-135): the first entry whose year
differs from the current calendar year and whose month equals the
latest report's month (`date[4:6] == quater`). -/
def firstNonCurrentSameMonth (currentYear m : ℕ) (hist : List EpsEntry) : Option EpsEntry :=
  hist.find? (fun e => decide (e.year ≠ currentYear ∧ e.month = m))

/-- Shallow embedding of `PERatioCollector._calculate_pe_ratio_manually`
(pe_ratio_collector.py lines 84-151), given the current price and the
EPS history (most recent first).  Returns the `[pe_d, pe_j, pe_TTM]`
triple (dynamic, static, trailing-twelve-month PE); `none` models the
Python function returning `None`, which happens when the history is
empty (IndexError on `hist_eps[0]`) or a division by zero is raised,
all caught by the surrounding `except`. -/
def calculate_pe_ratio_manually (currentYear : ℕ) (current_price : ℚ)
    (hist_eps : List EpsEntry) : Option (ℚ × ℚ × ℚ) :=
  match hist_eps with
  | [] => none
  | last_eps :: _ =>
    let m := last_eps.month
    -- eps_d = eps * 1.0 / int(quater) * 12 ; int(quater) = 0 would raise
    if m = 0 then none else
    let eps_d : ℚ := last_eps.eps / (m : ℚ) * 12
    -- pe_d = current_price / eps_d raises iff eps_d == 0
    if eps_d = 0 then none else
    let pe_d := current_price / eps_d
    match firstNonCurrentYear currentYear hist_eps with
    | none =>
      -- last_year_eps stays 0 and pe_j stays pe_d; the TTM loop can
      -- match no entry either (its filter is strictly stronger)
      some (pe_d, pe_d, pe_d)
    | some se =>
      -- pe_j = current_price / last_year_eps raises iff last_year_eps == 0
      if se.eps = 0 then none else
      let pe_j := current_price / se.eps
      if m ≠ 12 then
        match firstNonCurrentSameMonth currentYear m hist_eps with
        | none => some (pe_d, pe_j, pe_d)   -- pe_TTM keeps its initial value pe_d
        | some te =>
          let eps_TTM := se.eps - te.eps + last_eps.eps
          if eps_TTM = 0 then none else
          some (pe_d, pe_j, current_price / eps_TTM)
      else
        some (pe_d, pe_j, pe_d)             -- pe_TTM keeps its initial value pe_d

/-- Shallow embedding of `StockAnalyzer.cal_pe` (regression.py lines
59-90).  `hist` models the `historical_pe` dict: a list of
`(year, pe)` pairs in insertion order (dict keys are unique).  The
scan breaks at the first entry whose year exceeds `YEAR`
(`if int(year) > YEAR: break`), counts positive PE values
(`valid_pe_num`) and those strictly below the evaluation year's PE
(`rank` starts at 1).  `none` models the uncaught ZeroDivisionError
when `valid_pe_num` is 0. -/
def cal_pe (YEAR : ℕ) (hist : List (ℕ × ℚ)) : Option ℚ :=
  if hist.length < 2 then some 100
  else
    match hist.find? (fun e => decide (e.1 = YEAR)) with
    | none => some 100
    | some te =>
      let this_pe := te.2
      if this_pe < 0 then some 100
      else
        let scanned := hist.takeWhile (fun e => decide (e.1 ≤ YEAR))
        let valid_pe_num := (scanned.filter (fun e => decide (0 < e.2))).length
        let rank := 1 + (scanned.filter (fun e => decide (0 < e.2 ∧ e.2 < this_pe))).length
        if rank = 1 ∧ 3 < valid_pe_num then some 1
        else if valid_pe_num = 0 then none
        else some ((rank : ℚ) * 100 / (valid_pe_num : ℚ))

/-- The valuation gate of `StockAnalyzer.find_good_stocks`
(regression.py lines 160-162): the stock is rejected exactly when
`cal_pe` returns a value above 30. -/
def pe_gate_pass (YEAR : ℕ) (hist : List (ℕ × ℚ)) : Option Bool :=
  (cal_pe YEAR hist).map (fun r => !decide (30 < r))

/-- Value held in one quarter slot of a `history_roe` year entry:
JSON null, a float NaN, or an actual number. -/
inductive RVal where
  | null : RVal
  | nan  : RVal
  | val  : ℚ → RVal
  deriving DecidableEq, Repr

/-- Association-list lookup for dict-like data keyed by integers. -/
def zlookup {α : Type} (l : List (ℤ × α)) (k : ℤ) : Option α :=
  (l.find? (fun e => decide (e.1 = k))).map (·.2)

/-- The collection loop of `StockAnalyzer.roe_distrub` (regression.py
lines 123-132): for `i` in a list of offsets, look up year `YEAR - i`
in the profile, skip missing years and empty arrays, read slot index 1
(`kf_roe = roe[1]`), skip NaN values, and raise (`.exn`) when the slot
is null (`math.isnan(None)` is a TypeError) or the array has no index
1 (IndexError). -/
def roe_collect (YEAR : ℤ) (profile : List (ℤ × List RVal)) : List ℤ → PyR (List ℚ)
  | [] => .ok []
  | i :: rest =>
    match zlookup profile (YEAR - i) with
    | none => roe_collect YEAR profile rest
    | some roe =>
      if roe.length = 0 then roe_collect YEAR profile rest
      else
        match roe.get? 1 with
        | none => .exn
        | some .null => .exn
        | some .nan => roe_collect YEAR profile rest
        | some (.val q) =>
          match roe_collect YEAR profile rest with
          | .ok l => .ok (q :: l)
          | .exn => .exn

/-- Population mean of a list of rationals (`np.mean`). -/
def listMean (l : List ℚ) : ℚ := l.sum / (l.length : ℚ)

/-- Population variance of a list of rationals; `np.std(l) > 2` is
equivalent to `listVar l > 4`, and `np.std(l) <= 2` to
`listVar l <= 4`, since both sides are nonnegative. -/
def listVar (l : List ℚ) : ℚ :=
  (l.map (fun x => (x - listMean l) ^ 2)).sum / (l.length : ℚ)

/-- Shallow embedding of `StockAnalyzer.roe_distrub` (regression.py
lines 119-148).  `profile` models `stock_info['roe_details']['history_roe']`:
a year-keyed dict of quarter-slot arrays as produced by
`StockDataCollector.get_ROE` (stock_data_collector_demo.py lines
346-372: index 0 = month 03, 1 = month 06, 2 = month 09, 3 = month 12).
The standard-deviation test `std > 2` is embedded as the equivalent
exact test `variance > 4`. -/
def roe_distrub (thisYear YEAR : ℤ) (profile : List (ℤ × List RVal)) :
    PyR (Bool × List ℚ) :=
  let collected := if YEAR < thisYear then roe_collect YEAR profile [0, 1, 2, 3, 4]
                   else .ok []
  match collected with
  | .exn => .exn
  | .ok roe_list =>
    if roe_list.length < 3 then .ok (false, [])
    else if listMean roe_list < 10 then .ok (false, roe_list)
    else if 4 < listVar roe_list then .ok (false, roe_list)
    else .ok (true, roe_list)

/-- Modelled from the spec: the ROE stability check as claim C4 states
it, reading the full-year (Q4) slot — index 3 — of each of the 5 years
ending at the evaluation year, skipping years without data, requiring
at least 3 observations, and passing exactly when the mean is at least
10 and the population standard deviation is at most 2 (variance at
most 4).  Used only to compare the claim's predicate with the code's
`roe_distrub`. -/
def roe_check_spec (thisYear YEAR : ℤ) (profile : List (ℤ × List RVal)) :
    Bool × List ℚ :=
  let collect : List ℤ → List ℚ := fun offsets =>
    offsets.foldr (fun i acc =>
      match zlookup profile (YEAR - i) with
      | some roe =>
        match roe.get? 3 with
        | some (.val q) => q :: acc
        | _ => acc
      | none => acc) []
  let roe_list := if YEAR < thisYear then collect [0, 1, 2, 3, 4] else []
  if roe_list.length < 3 then (false, [])
  else ((decide (10 ≤ listMean roe_list) && decide (listVar roe_list ≤ 4)), roe_list)

/-- Shallow embedding of `StockAnalyzer.cal_profit` (regression.py
lines 36-57).  `prices` models the `history_price_hfq` dict
(year-keyed, values possibly null); `sqrtFn` models `math.sqrt`, whose
value is pinned down by hypotheses where it matters.  A missing year
key is a KeyError, division by a zero price a ZeroDivisionError, and
a null `Y+2` price a TypeError — all uncaught, modelled by `.exn`. -/
def cal_profit (thisYear : ℕ) (sqrtFn : ℚ → ℚ) (YEAR : ℕ)
    (prices : List (ℕ × Option ℚ)) : PyR (ℚ × Option ℚ) :=
  if thisYear ≤ YEAR then .ok (0, some 0)
  else
    match (prices.find? (fun e => decide (e.1 = YEAR))).map (·.2) with
    | none => .exn
    | some priceOpt =>
      match (prices.find? (fun e => decide (e.1 = YEAR + 1))).map (·.2) with
      | none => .exn
      | some nextOpt =>
        match priceOpt, nextOpt with
        | none, _ => .ok (0, some 0)
        | some _, none => .ok (0, some 0)
        | some price, some next_price =>
          if price = 0 then .exn
          else
            let profit := (next_price - price) / price * 100
            if thisYear ≤ YEAR + 1 then .ok (profit, none)
            else
              match (prices.find? (fun e => decide (e.1 = YEAR + 2))).map (·.2) with
              | none => .exn
              | some none => .exn
              | some (some next_next) =>
                .ok (profit, some ((sqrtFn (next_next / price) - 1) * 100))

/-- One row of the raw financial report table: the `指标` label and the
per-period values (possibly null).  Periods themselves are irrelevant
to the claims about row selection. -/
structure Row where
  label : String
  vals  : List (Option ℚ)
  deriving DecidableEq, Repr

/-- A raw report table is its list of rows. -/
abbrev Table := List Row

/-- The row-selection scan of `FinancialData.get_indicator_data`
(financial_data.py lines 96-102): `row` starts at 0 and is overwritten
by the index of every row whose label equals the requested indicator
exactly, so it ends at the last match, or stays 0 when nothing
matches. -/
def indicatorRowIndex (table : Table) (indicator : String) : ℕ :=
  table.enum.foldl (fun acc e => if e.2.label = indicator then e.1 else acc) 0

/-- Shallow embedding of `FinancialData.get_indicator_data`
(financial_data.py lines 76-104) applied to an already-fetched table.
Returns `df.iloc[[row]]`; on an empty table `iloc` raises an
IndexError (`.exn`). -/
def get_indicator_data (table : Table) (indicator : String) : PyR Row :=
  match table.get? (indicatorRowIndex table indicator) with
  | some r => .ok r
  | none => .exn

/-- In-memory state of a `FinancialData` instance: the
`data_cache` dict and the `fetched_symbols` set. -/
structure FDState where
  data_cache      : List (String × Table)
  fetched_symbols : List String
  deriving DecidableEq, Repr

/-- Python-dict insertion: overwrite the first binding of the key in
place, or append a new binding. -/
def dictInsert {α : Type} (l : List (String × α)) (k : String) (v : α) :
    List (String × α) :=
  match l with
  | [] => [(k, v)]
  | e :: rest => if e.1 = k then (k, v) :: rest else e :: dictInsert rest k v

/-- Association-list lookup for string-keyed dicts. -/
def slookup {α : Type} (l : List (String × α)) (k : String) : Option α :=
  (l.find? (fun e => decide (e.1 = k))).map (·.2)

/-- What one call to `ak.stock_financial_abstract` may do: raise, or
return a table (where `None` and the empty table are both possible
results). -/
def Provider := String → PyR (Option Table)

/-- Shallow embedding of `FinancialData.get_financial_data`
(financial_data.py lines 32-74).  Returns the table (or `none`), the
state after the call, and whether the external provider was called.
An empty or `None` provider table, and a raised provider exception,
all yield `none` without touching the cache; a non-empty table is
stored in `data_cache` and `fetched_symbols` before being returned. -/
def get_financial_data (provider : Provider) (st : FDState) (symbol : String) :
    Option Table × FDState × Bool :=
  if symbol = "" then (none, st, false)
  else
    match slookup st.data_cache symbol with
    | some t => (some t, st, false)
    | none =>
      match provider symbol with
      | .exn => (none, st, true)
      | .ok none => (none, st, true)
      | .ok (some t) =>
        if t.isEmpty then (none, st, true)
        else (some t,
              { data_cache := dictInsert st.data_cache symbol t,
                fetched_symbols := st.fetched_symbols ++ [symbol] },
              true)

/-- What one daily-price provider request can yield: an exception, an
empty frame, or a frame whose last close is the carried value.  The
request is keyed by the start window (year, month, start day as a
possibly non-positive integer), the target date and the adjustment
mode. -/
inductive FetchR where
  | raise : FetchR
  | empty : FetchR
  | data  : ℚ → FetchR
  deriving DecidableEq, Repr

/-- A target date `YYYYMMDD`, modelled by its fields. -/
structure TDate where
  y : ℕ
  m : ℕ
  d : ℕ
  deriving DecidableEq, Repr

/-- The start of the first window requested by
`StockDataCollector.get_price` (stock_data_collector_demo.py lines
302-307): same year and month as the target, day-of-month minus 2
computed on integers (`day = int(startdate[6:]) - 2`), without any
roll-over into the previous month. -/
def startWindow (date : TDate) : ℕ × ℕ × ℤ :=
  (date.y, date.m, (date.d : ℤ) - 2)

/-- Shallow embedding of `StockDataCollector.get_price`
(stock_data_collector_demo.py lines 287-337).  `fetch` models
`ak.stock_zh_a_daily` for the given symbol; everything runs inside one
`try`, so a raised fetch yields `None` and an empty first window is
retried exactly once from the first day of the target's month. -/
def get_price (fetch : ℕ × ℕ × ℤ → TDate → String → FetchR)
    (date : TDate) (adjust : String) : Option ℚ :=
  match fetch (startWindow date) date adjust with
  | .data p => some p
  | .raise => none
  | .empty =>
    match fetch (date.y, date.m, (1 : ℤ)) date adjust with
    | .data p => some p
    | .raise => none
    | .empty => none

/-- Number of days in a month of the proleptic Gregorian calendar. -/
def daysInMonth (y m : ℕ) : ℕ :=
  if m = 2 then
    if y % 4 = 0 ∧ (y % 100 ≠ 0 ∨ y % 400 = 0) then 29 else 28
  else if m = 4 ∨ m = 6 ∨ m = 9 ∨ m = 11 then 30
  else 31

/-- The calendar day before a date. -/
def prevDay (date : TDate) : TDate :=
  if date.d = 1 then
    if date.m = 1 then ⟨date.y - 1, 12, 31⟩
    else ⟨date.y, date.m - 1, daysInMonth date.y (date.m - 1)⟩
  else ⟨date.y, date.m, date.d - 1⟩

/-- Modelled from the spec: the date two calendar days before the
target date, as claim C7's wording "the window starting two calendar
days before the target date" denotes.  Used only to compare the
claim's window start with the code's `startWindow`. -/
def twoCalendarDaysBefore (date : TDate) : TDate :=
  prevDay (prevDay date)

/-- Generic association-list lookup (Python dict read). -/
def alookup {κ α : Type} [DecidableEq κ] (l : List (κ × α)) (k : κ) : Option α :=
  (l.find? (fun e => decide (e.1 = k))).map (·.2)

/-- Generic Python-dict insertion: overwrite the first binding of the
key in place, or append a new binding. -/
def ainsert {κ α : Type} [DecidableEq κ] (l : List (κ × α)) (k : κ) (v : α) :
    List (κ × α) :=
  match l with
  | [] => [(k, v)]
  | e :: rest => if e.1 = k then (k, v) :: rest else e :: ainsert rest k v

/-- The loop body of `PERatioCollector.get_historical_pe_ratios`
(pe_ratio_collector.py lines 254-261), run inside the `try`: for each
annual (month 12) entry with a resolved price and a non-null EPS,
record `price / eps` keyed by the report date; a zero EPS raises
(`.exn`).  `priceOf` models `_get_price`, which never raises (it
catches its own provider errors) and may return `None`. -/
def pe_ratios_loop (priceOf : ℕ × ℕ → Option ℚ) (acc : List ((ℕ × ℕ) × ℚ)) :
    List (ℕ × ℕ × Option ℚ) → PyR (List ((ℕ × ℕ) × ℚ))
  | [] => .ok acc
  | (y, m, eps) :: rest =>
    if m = 12 then
      match priceOf (y, m) with
      | none => pe_ratios_loop priceOf acc rest
      | some price =>
        match eps with
        | none => pe_ratios_loop priceOf acc rest
        | some e =>
          if e = 0 then .exn
          else pe_ratios_loop priceOf (ainsert acc (y, m) (price / e)) rest
    else pe_ratios_loop priceOf acc rest

/-- Shallow embedding of `PERatioCollector.get_historical_pe_ratios`
(pe_ratio_collector.py lines 239-269): the whole loop runs inside a
`try` whose `except` returns the empty dict, so any raised division
error discards every recorded year. -/
def get_historical_pe_ratios (priceOf : ℕ × ℕ → Option ℚ)
    (hist_eps : List (ℕ × ℕ × Option ℚ)) : List ((ℕ × ℕ) × ℚ) :=
  match pe_ratios_loop priceOf [] hist_eps with
  | .ok r => r
  | .exn => []

/-- Stable insertion of one `(year, value)` pair after every entry with
a year less than or equal to it; `sortByYear` built on it models
Python's stable `profit_year.sort(key=lambda x: x[0])`. -/
def insByYear (x : ℕ × ℚ) : List (ℕ × ℚ) → List (ℕ × ℚ)
  | [] => [x]
  | y :: ys => if y.1 ≤ x.1 then y :: insByYear x ys else x :: y :: ys

/-- Stable ascending sort by year (see `insByYear`). -/
def sortByYear (l : List (ℕ × ℚ)) : List (ℕ × ℚ) :=
  l.foldl (fun acc x => insByYear x acc) []

/-- The growth-rate loop of `PERatioCollector.get_historical_peg`
(pe_ratio_collector.py lines 291-299): entries of the first year are
skipped; every other entry yields `(p - last_p) / last_p * 100`, which
raises a ZeroDivisionError (`.exn`) when the running `last_p` is 0. -/
def ratio_loop (first_year : ℕ) : ℚ → List (ℕ × ℚ) → List (ℕ × ℚ) →
    PyR (List (ℕ × ℚ))
  | _, acc, [] => .ok acc
  | last_p, acc, (year, p) :: rest =>
    if year = first_year then ratio_loop first_year last_p acc rest
    else if last_p = 0 then .exn
    else ratio_loop first_year p (ainsert acc year ((p - last_p) / last_p * 100)) rest

/-- The PEG loop of `PERatioCollector.get_historical_peg`
(pe_ratio_collector.py lines 303-309): for each historical PE entry
whose year has a recorded growth rate, `peg = pe / growth`, which
raises a ZeroDivisionError (`.exn`) when the growth rate is exactly
0. -/
def peg_loop (ratios : List (ℕ × ℚ)) (acc : List (ℕ × ℚ)) :
    List ((ℕ × ℕ) × ℚ) → PyR (List (ℕ × ℚ))
  | [] => .ok acc
  | ((y, _), pe) :: rest =>
    match alookup ratios y with
    | none => peg_loop ratios acc rest
    | some g =>
      if g = 0 then .exn
      else peg_loop ratios (ainsert acc y (pe / g)) rest

/-- The annual-profit extraction of `get_historical_peg`
(pe_ratio_collector.py lines 282-289): keep the month-12 entries as
`(year, profit)` pairs and sort them by year (stable). -/
def annual_profits (profit_hist : List (ℕ × ℕ × ℚ)) : List (ℕ × ℚ) :=
  sortByYear ((profit_hist.filter (fun e => decide (e.2.1 = 12))).map
    (fun e => (e.1, e.2.2)))

/-- Shallow embedding of `PERatioCollector.get_historical_peg`
(pe_ratio_collector.py lines 271-311).  The function has no
`try`/`except`: an empty annual list raises an IndexError on
`profit_year[0]`, and the zero-divisor cases of `ratio_loop` and
`peg_loop` propagate as uncaught exceptions (`.exn`).  An empty
profit history returns `None`. -/
def get_historical_peg (profit_hist : List (ℕ × ℕ × ℚ))
    (historical_pe : List ((ℕ × ℕ) × ℚ)) : PyR (Option (List (ℕ × ℚ))) :=
  if profit_hist.isEmpty then .ok none
  else
    match annual_profits profit_hist with
    | [] => .exn
    | (first_year, first_p) :: _ =>
      match ratio_loop first_year first_p [] (annual_profits profit_hist) with
      | .exn => .exn
      | .ok ratios =>
        match peg_loop ratios [] historical_pe with
        | .exn => .exn
        | .ok pegs => .ok (some pegs)

/-! ## Claim C1 -/

/-- C1 counterexample: the claim fails as stated, at concrete inputs,
for both of its halves.  (i) Current year 2025, latest EPS entry the
annual (month-12) report dated 2025: the code returns TTM PE 50 and
static PE 25, which differ.  (ii) Current year 2025, latest entry the
2024-Q3 report (EPS 2) with prior-year same-quarter entry 2023-Q3
(EPS 3) and prior full-year entry 2023-annual (EPS 5): the claim
predicts TTM EPS 5 − 3 + 2 = 4, hence TTM PE 25, but the code computes
TTM EPS 2 − 2 + 2 = 2 from the 2024-Q3 entry (the first entry not
dated in the current year on both lookups), hence TTM PE 50. -/
theorem C1_counterexample :
    (calculate_pe_ratio_manually 2025 100 [⟨2025, 12, 2⟩, ⟨2024, 12, 4⟩] =
        some (50, 25, 50) ∧ (50 : ℚ) ≠ 25)
    ∧ (calculate_pe_ratio_manually 2025 100 [⟨2024, 9, 2⟩, ⟨2023, 12, 5⟩, ⟨2023, 9, 3⟩] =
        some (75 / 2, 50, 50) ∧ (50 : ℚ) ≠ 100 / (5 - 3 + 2)) := by
  norm_num [calculate_pe_ratio_manually, firstNonCurrentYear,
    firstNonCurrentSameMonth, List.find?]

/-- C1 (amended): if the latest EPS entry is an annual (month-12)
report dated in a year other than the current calendar year, then
dynamic, static and TTM PE all equal price divided by that EPS — in
particular TTM PE equals static PE.  If the latest entry is a
partial-year report (month ≠ 12) dated in the current year, the first
entry not dated in the current year is the prior year's annual report
`f`, and the first non-current-year entry for the same quarter is the
prior year's report `g`, then TTM EPS = f.eps − g.eps + latest EPS and
TTM PE = price / that TTM EPS (with static PE = price / f.eps). -/
theorem C1_ttm_pe (cy : ℕ) (price : ℚ)
    (a : EpsEntry) (resta : List EpsEntry)
    (b f g : EpsEntry) (restb : List EpsEntry)
    (ha12 : a.month = 12) (hay : a.year ≠ cy) (hae : a.eps ≠ 0)
    (hbm0 : b.month ≠ 0) (hbm12 : b.month ≠ 12) (hby : b.year = cy) (hbe : b.eps ≠ 0)
    (hf : firstNonCurrentYear cy (b :: restb) = some f)
    (hf12 : f.month = 12) (hfy : f.year = cy - 1) (hfe : f.eps ≠ 0)
    (hg : firstNonCurrentSameMonth cy b.month (b :: restb) = some g)
    (hgy : g.year = cy - 1)
    (httm : f.eps - g.eps + b.eps ≠ 0) :
    calculate_pe_ratio_manually cy price (a :: resta) =
      some (price / a.eps, price / a.eps, price / a.eps)
    ∧ calculate_pe_ratio_manually cy price (b :: restb) =
      some (price / (b.eps / (b.month : ℚ) * 12), price / f.eps,
            price / (f.eps - g.eps + b.eps)) := by
  constructor
  · have h12 : a.eps / ((a.month : ℕ) : ℚ) * 12 = a.eps := by
      rw [ha12]; push_cast; field_simp
    have hfind : firstNonCurrentYear cy (a :: resta) = some a := by
      simp [firstNonCurrentYear, List.find?_cons_of_pos, hay]
    simp only [calculate_pe_ratio_manually, hfind, ha12, h12]
    simp [hae]
  · have hm : ((b.month : ℕ) : ℚ) ≠ 0 := by exact_mod_cast hbm0
    have hd : b.eps / ((b.month : ℕ) : ℚ) * 12 ≠ 0 := by
      intro hc
      rcases mul_eq_zero.mp hc with hc1 | hc2
      · exact hbe (by
          have := (div_eq_zero_iff.mp hc1)
          rcases this with h1 | h2
          · exact h1
          · exact absurd h2 hm)
      · norm_num at hc2
    simp only [calculate_pe_ratio_manually, hf, hg]
    simp [hbm0, hd, hfe, hbm12, httm]

/-- C1 witness: the amended statement instantiated at current year
2025 and price 100 — annual series `[2024-12 EPS 5]` gives the triple
(20, 20, 20); partial series `[2025-06 EPS 2, 2024-12 EPS 5,
2024-06 EPS 3]` gives dynamic 25, static 20, TTM 100 / (5 − 3 + 2) = 25. -/
theorem C1_ttm_pe_witness :
    calculate_pe_ratio_manually 2025 100 [⟨2024, 12, 5⟩] = some (20, 20, 20)
    ∧ calculate_pe_ratio_manually 2025 100
        [⟨2025, 6, 2⟩, ⟨2024, 12, 5⟩, ⟨2024, 6, 3⟩] = some (25, 20, 25) := by
  have h := C1_ttm_pe 2025 100 ⟨2024, 12, 5⟩ [] ⟨2025, 6, 2⟩ ⟨2024, 12, 5⟩
    ⟨2024, 6, 3⟩ [⟨2024, 12, 5⟩, ⟨2024, 6, 3⟩]
    rfl (by decide) (by norm_num) (by decide) (by decide) rfl (by norm_num)
    (by decide) rfl rfl (by norm_num) (by decide) rfl (by norm_num)
  constructor
  · rw [h.1]; norm_num
  · rw [h.2]; norm_num

/-! ## Claim C2 -/

/-- C2 counterexample: current year 2025, EPS history
`[2024-09 EPS 2, 2023-12 EPS 5]`, price 100.  The most recent prior
full calendar year is 2023 with annual EPS 5, so the claim's static PE
would be 100 / 5 = 20; the code computes static PE 50 = 100 / 2 from
the 2024-Q3 entry, which is merely the first entry not dated in the
current year. -/
theorem C2_counterexample :
    calculate_pe_ratio_manually 2025 100 [⟨2024, 9, 2⟩, ⟨2023, 12, 5⟩] =
      some (75 / 2, 50, 50)
    ∧ (50 : ℚ) ≠ 100 / 5 := by
  norm_num [calculate_pe_ratio_manually, firstNonCurrentYear,
    firstNonCurrentSameMonth, List.find?]

/-- C2 (amended): whenever the manual PE computation returns a triple,
its static component equals price divided by the EPS of the first
entry of the series whose year differs from the current calendar year
(whatever that entry's quarter); entries dated in the current year are
skipped.  This coincides with the prior full year's annual EPS exactly
when that first non-current-year entry is the annual report. -/
theorem C2_static_pe (cy : ℕ) (price : ℚ) (hist : List EpsEntry) (f : EpsEntry)
    (hf : firstNonCurrentYear cy hist = some f) (hfe : f.eps ≠ 0) :
    ∀ pd pj pt, calculate_pe_ratio_manually cy price hist = some (pd, pj, pt) →
      pj = price / f.eps := by
  intro pd pj pt h
  match hist, hf with
  | [], hf => simp [firstNonCurrentYear] at hf
  | e :: rest, hf =>
    simp only [calculate_pe_ratio_manually, hf] at h
    by_cases h0 : e.month = 0
    · rw [if_pos h0] at h; cases h
    rw [if_neg h0] at h
    by_cases hd : e.eps / ((e.month : ℕ) : ℚ) * 12 = 0
    · rw [if_pos hd] at h; cases h
    rw [if_neg hd, if_neg hfe] at h
    by_cases hm12 : e.month ≠ 12
    · rw [if_pos hm12] at h
      cases hg2 : firstNonCurrentSameMonth cy e.month (e :: rest) with
      | none =>
        rw [hg2] at h
        simp only [Option.some.injEq, Prod.mk.injEq] at h
        exact h.2.1.symm
      | some te =>
        rw [hg2] at h
        dsimp only at h
        by_cases ht : f.eps - te.eps + e.eps = 0
        · rw [if_pos ht] at h; cases h
        rw [if_neg ht] at h
        simp only [Option.some.injEq, Prod.mk.injEq] at h
        exact h.2.1.symm
    · rw [if_neg hm12] at h
      simp only [Option.some.injEq, Prod.mk.injEq] at h
      exact h.2.1.symm

/-- C2 witness: the amended statement instantiated at current year
2025, price 100 and history `[2024-09 EPS 2, 2023-12 EPS 5]`: the
returned static PE is 100 / 2. -/
theorem C2_static_pe_witness : (50 : ℚ) = 100 / 2 := by
  exact C2_static_pe 2025 100 [⟨2024, 9, 2⟩, ⟨2023, 12, 5⟩] ⟨2024, 9, 2⟩
    rfl (by norm_num) (75 / 2) 50 50
    (by norm_num [calculate_pe_ratio_manually, firstNonCurrentYear,
      firstNonCurrentSameMonth, List.find?])

/-! ## Claims C3 and C10: the valuation-percentile check -/

/-- Count, as the claims word it, of the positive historical PE values
dated at or before the evaluation year. -/
def posCountUpTo (YEAR : ℕ) (hist : List (ℕ × ℚ)) : ℕ :=
  (hist.filter (fun e => decide (e.1 ≤ YEAR ∧ 0 < e.2))).length

/-- Rank, as the claims word it, of the evaluation year's PE `p`:
1 plus the number of positive values dated at or before the evaluation
year that are strictly lower than `p`. -/
def rankUpTo (YEAR : ℕ) (hist : List (ℕ × ℚ)) (p : ℚ) : ℕ :=
  1 + (hist.filter (fun e => decide (e.1 ≤ YEAR ∧ 0 < e.2 ∧ e.2 < p))).length

/-- In a list sorted by strictly increasing year, breaking at the first
year above `YEAR` scans exactly the entries dated at or before
`YEAR`. -/
theorem takeWhile_le_eq_filter (YEAR : ℕ) :
    ∀ (l : List (ℕ × ℚ)), l.Pairwise (fun a b => a.1 < b.1) →
      l.takeWhile (fun e => decide (e.1 ≤ YEAR)) =
        l.filter (fun e => decide (e.1 ≤ YEAR))
  | [], _ => rfl
  | a :: t, h => by
    rcases List.pairwise_cons.mp h with ⟨ha, ht⟩
    by_cases hle : a.1 ≤ YEAR
    · simp [List.takeWhile_cons, List.filter_cons, hle,
        takeWhile_le_eq_filter YEAR t ht]
    · have hnil : t.filter (fun e => decide (e.1 ≤ YEAR)) = [] := by
        apply List.filter_eq_nil_iff.mpr
        intro b hb
        have h1 : a.1 < b.1 := ha b hb
        simp only [decide_eq_true_eq]
        omega
      simp [List.takeWhile_cons, List.filter_cons, hle, hnil]

/-- Years are unique in a list sorted by strictly increasing year. -/
theorem mem_key_unique {YEAR : ℕ} {p : ℚ} :
    ∀ {l : List (ℕ × ℚ)}, l.Pairwise (fun a b => a.1 < b.1) →
      (YEAR, p) ∈ l → ∀ e ∈ l, e.1 = YEAR → e = (YEAR, p)
  | [], _, hm => by cases hm
  | a :: t, h, hm => by
    rcases List.pairwise_cons.mp h with ⟨ha, ht⟩
    intro e he hk
    rcases List.mem_cons.mp hm with hm1 | hm2
    · rcases List.mem_cons.mp he with he1 | he2
      · exact he1.trans hm1.symm
      · exfalso
        have h1 : a.1 < e.1 := ha e he2
        have h2 : a.1 = YEAR := by rw [← hm1]
        omega
    · rcases List.mem_cons.mp he with he1 | he2
      · exfalso
        have h1 : a.1 < YEAR := ha (YEAR, p) hm2
        have h2 : a.1 = YEAR := by rw [← he1]; exact hk
        omega
      · exact mem_key_unique ht hm2 e he2 hk

/-- Dict lookup of the evaluation year in a sorted PE history. -/
theorem find?_year_eq {YEAR : ℕ} {p : ℚ} :
    ∀ {l : List (ℕ × ℚ)}, l.Pairwise (fun a b => a.1 < b.1) →
      (YEAR, p) ∈ l → l.find? (fun e => decide (e.1 = YEAR)) = some (YEAR, p)
  | [], _, hm => by cases hm
  | a :: t, h, hm => by
    rcases List.pairwise_cons.mp h with ⟨ha, ht⟩
    rcases List.mem_cons.mp hm with hm1 | hm2
    · rw [← hm1]
      apply List.find?_cons_of_pos
      simp
    · have hk : a.1 ≠ YEAR := by
        have h1 : a.1 < YEAR := ha (YEAR, p) hm2
        omega
      rw [List.find?_cons_of_neg]
      · exact find?_year_eq ht hm2
      · simp [hk]

/-- Fusing the positivity filter with the at-or-before filter. -/
theorem filter_filter_le_pos (YEAR : ℕ) (l : List (ℕ × ℚ)) :
    (l.filter (fun e => decide (e.1 ≤ YEAR))).filter (fun e => decide (0 < e.2))
      = l.filter (fun e => decide (e.1 ≤ YEAR ∧ 0 < e.2)) := by
  induction l with
  | nil => rfl
  | cons a t ih =>
    by_cases h1 : a.1 ≤ YEAR <;> by_cases h2 : 0 < a.2 <;>
      simp [List.filter_cons, h1, h2, ih]

/-- Fusing the strictly-lower filter with the at-or-before filter. -/
theorem filter_filter_le_lt (YEAR : ℕ) (p : ℚ) (l : List (ℕ × ℚ)) :
    (l.filter (fun e => decide (e.1 ≤ YEAR))).filter
        (fun e => decide (0 < e.2 ∧ e.2 < p))
      = l.filter (fun e => decide (e.1 ≤ YEAR ∧ 0 < e.2 ∧ e.2 < p)) := by
  rw [List.filter_filter]
  apply List.filter_congr
  intro x _
  by_cases h1 : x.1 ≤ YEAR <;> by_cases h2 : 0 < x.2 <;> by_cases h3 : x.2 < p <;>
    simp [h1, h2, h3]

/-- Closed form of `cal_pe` on a sorted history containing a positive
evaluation-year entry: the code computes the claim-side rank and count
over the positive entries dated at or before the evaluation year. -/
theorem cal_pe_formula (YEAR : ℕ) (hist : List (ℕ × ℚ)) (p : ℚ)
    (hsort : hist.Pairwise (fun a b => a.1 < b.1))
    (hmem : (YEAR, p) ∈ hist) (hp : 0 < p) (hlen : 2 ≤ hist.length) :
    cal_pe YEAR hist =
      if rankUpTo YEAR hist p = 1 ∧ 3 < posCountUpTo YEAR hist then some 1
      else if posCountUpTo YEAR hist = 0 then none
      else some ((rankUpTo YEAR hist p : ℚ) * 100 / (posCountUpTo YEAR hist : ℚ)) := by
  have hfind := find?_year_eq hsort hmem
  have htw := takeWhile_le_eq_filter YEAR hist hsort
  unfold cal_pe
  rw [if_neg (by omega), hfind]
  dsimp only
  rw [if_neg (not_lt.mpr hp.le), htw, filter_filter_le_pos, filter_filter_le_lt]
  unfold rankUpTo posCountUpTo
  rfl

/-- The claim-side positive count is nonzero whenever the evaluation
year itself carries a positive PE. -/
theorem posCountUpTo_ne_zero (YEAR : ℕ) (hist : List (ℕ × ℚ)) (p : ℚ)
    (hmem : (YEAR, p) ∈ hist) (hp : 0 < p) : posCountUpTo YEAR hist ≠ 0 := by
  have hcmem : (YEAR, p) ∈ hist.filter (fun e => decide (e.1 ≤ YEAR ∧ 0 < e.2)) :=
    List.mem_filter.mpr ⟨hmem, by simp [hp]⟩
  unfold posCountUpTo
  intro hc
  rw [List.length_eq_zero] at hc
  rw [hc] at hcmem
  cases hcmem

/-- C3 counterexample: the claim's formula fails at two concrete
inputs.  (i) With PE history [(2020, 20), (2021, 30), (2022, 40),
(2023, 10)] evaluated at 2023, the rank is 1 among 4 positive years,
so the claimed formula gives 25, but the code returns 1 (its special
case for rank 1 with more than 3 valid years).  (ii) The spec's own
example — series [10, 20, 30] on ascending years with the evaluation
year holding PE 10 — makes the evaluation year the earliest year, so
the scan stops after one entry and the code returns 100, not 100/3;
the check still fails, but not at the claimed percentile. -/
theorem C3_counterexample :
    cal_pe 2023 [(2020, 20), (2021, 30), (2022, 40), (2023, 10)] = some 1
    ∧ ((1 : ℚ) * 100 / 4 ≠ 1)
    ∧ cal_pe 2021 [(2021, 10), (2022, 20), (2023, 30)] = some 100
    ∧ ((100 : ℚ) ≠ 1 / 3 * 100) := by
  refine ⟨?_, by norm_num, ?_, by norm_num⟩ <;>
    norm_num [cal_pe, List.find?, List.takeWhile, List.filter]

/-- C3 (amended): for a year-sorted PE history containing a positive
PE `p` for the evaluation year and at least 2 entries, `cal_pe`
returns rank / count * 100 over the positive values dated at or
before the evaluation year — except that it returns 1 outright when
the rank is 1 and the count exceeds 3.  The screening gate fails
exactly when the returned value exceeds 30, and any history with
fewer than 2 entries fails the gate (the percentile is reported as
100 there, so for the series [10, 20, 30] with the evaluation year
holding PE 10, only that year is scanned and the result is 100, not
100/3; the check still fails). -/
theorem C3_percentile (YEAR : ℕ) (hist : List (ℕ × ℚ)) (p : ℚ)
    (hsort : hist.Pairwise (fun a b => a.1 < b.1))
    (hmem : (YEAR, p) ∈ hist) (hp : 0 < p) (hlen : 2 ≤ hist.length) :
    cal_pe YEAR hist =
      some (if rankUpTo YEAR hist p = 1 ∧ 3 < posCountUpTo YEAR hist
            then 1
            else (rankUpTo YEAR hist p : ℚ) * 100 / (posCountUpTo YEAR hist : ℚ))
    ∧ (∀ r, cal_pe YEAR hist = some r → 30 < r →
        pe_gate_pass YEAR hist = some false)
    ∧ (∀ r, cal_pe YEAR hist = some r → ¬ 30 < r →
        pe_gate_pass YEAR hist = some true)
    ∧ (∀ Y2 h2, List.length h2 < 2 → pe_gate_pass Y2 h2 = some false) := by
  refine ⟨?_, ?_, ?_, ?_⟩
  · rw [cal_pe_formula YEAR hist p hsort hmem hp hlen]
    have hcount := posCountUpTo_ne_zero YEAR hist p hmem hp
    by_cases hc : rankUpTo YEAR hist p = 1 ∧ 3 < posCountUpTo YEAR hist
    · rw [if_pos hc, if_pos hc]
    · rw [if_neg hc, if_neg hcount, if_neg hc]
  · intro r h1 h2
    unfold pe_gate_pass
    rw [h1]
    simp [h2]
  · intro r h1 h2
    unfold pe_gate_pass
    rw [h1]
    simp [h2]
  · intro Y2 h2 hl
    simp [pe_gate_pass, cal_pe, hl]
    norm_num

/-- C3 witness: the amended statement at the spec's own example — PE
series [10, 20, 30] on years 2021..2023 with the evaluation year 2021
holding PE 10 — gives 100 (rank 1 of 1 positive year at or before
2021); and a single-entry history fails the gate. -/
theorem C3_percentile_witness :
    cal_pe 2021 [(2021, 10), (2022, 20), (2023, 30)] = some 100
    ∧ pe_gate_pass 2020 [(2021, 10)] = some false := by
  have h := C3_percentile 2021 [(2021, 10), (2022, 20), (2023, 30)] 10
    (by decide) (by simp) (by norm_num) (by norm_num)
  constructor
  · rw [h.1]
    norm_num [rankUpTo, posCountUpTo, List.filter]
  · exact h.2.2.2 2020 [(2021, 10)] (by norm_num)

/-- C10: when the evaluation year's PE is positive and strictly lower
than every other positive PE dated at or before that year, `cal_pe`
returns exactly 1 when the count of positive values is greater than 3,
and 100 / count (the rank-1 formula value) when the count is at most
3. -/
theorem C10_lowest_pe (YEAR : ℕ) (hist : List (ℕ × ℚ)) (p : ℚ)
    (hsort : hist.Pairwise (fun a b => a.1 < b.1))
    (hmem : (YEAR, p) ∈ hist) (hp : 0 < p)
    (hlow : ∀ e ∈ hist, e.1 ≤ YEAR → 0 < e.2 → e.1 ≠ YEAR → p < e.2) :
    cal_pe YEAR hist =
      some (if 3 < posCountUpTo YEAR hist then 1
            else 100 / (posCountUpTo YEAR hist : ℚ)) := by
  have hrank : hist.filter (fun e => decide (e.1 ≤ YEAR ∧ 0 < e.2 ∧ e.2 < p)) = [] := by
    apply List.filter_eq_nil_iff.mpr
    intro e he
    simp only [decide_eq_true_eq, not_and, not_lt]
    intro h1 h2
    by_cases hk : e.1 = YEAR
    · rw [mem_key_unique hsort hmem e he hk]
    · exact (hlow e he h1 h2 hk).le
  by_cases hlen : hist.length < 2
  · have h1 : hist = [(YEAR, p)] := by
      match hist, hmem, hlen with
      | [a], hmem, _ =>
        rcases List.mem_cons.mp hmem with h | h
        · rw [← h]
        · cases h
    rw [h1]
    simp [cal_pe, posCountUpTo, List.filter_cons, hp]
  · rw [cal_pe_formula YEAR hist p hsort hmem hp (by omega)]
    have hcount := posCountUpTo_ne_zero YEAR hist p hmem hp
    have hr1 : rankUpTo YEAR hist p = 1 := by
      unfold rankUpTo
      rw [hrank]
      rfl
    rw [hr1]
    by_cases h3 : 3 < posCountUpTo YEAR hist
    · rw [if_pos ⟨rfl, h3⟩, if_pos h3]
    · rw [if_neg (fun hc => h3 hc.2), if_neg hcount, if_neg h3]
      norm_num

/-- C10 witness: PE history [(2020, 20), (2021, 30), (2022, 40),
(2023, 10)] evaluated at 2023 (PE 10, the lowest, with 4 positive
years) returns exactly 1. -/
theorem C10_lowest_pe_witness :
    cal_pe 2023 [(2020, 20), (2021, 30), (2022, 40), (2023, 10)] = some 1 := by
  have h := C10_lowest_pe 2023 [(2020, 20), (2021, 30), (2022, 40), (2023, 10)] 10
    (by decide) (by simp) (by norm_num)
    (by
      intro e he h1 h2 h3
      fin_cases he <;> norm_num at h3 ⊢)
  rw [h]
  norm_num [posCountUpTo, List.filter]

/-! ## Claim C4: the ROE stability check -/

/-- A 5-year profile whose half-year (index 1) slots hold the spec's
volatile example list [20, 5, 15, 3, 18] while the full-year (index 3)
slots hold the spec's stable example list [11, 10.5, 11.2, 10.8,
10.9]. -/
def roeProfileMixed : List (ℤ × List RVal) :=
  [(2019, [.val 0, .val 20, .val 0, .val 11]),
   (2020, [.val 0, .val 5,  .val 0, .val (21 / 2)]),
   (2021, [.val 0, .val 15, .val 0, .val (56 / 5)]),
   (2022, [.val 0, .val 3,  .val 0, .val (54 / 5)]),
   (2023, [.val 0, .val 18, .val 0, .val (109 / 10)])]

/-- A 5-year profile whose half-year (index 1) slots hold the spec's
stable example list. -/
def roeProfileStable : List (ℤ × List RVal) :=
  [(2019, [.val 0, .val 11, .val 0, .val 0]),
   (2020, [.val 0, .val (21 / 2),  .val 0, .val 0]),
   (2021, [.val 0, .val (56 / 5),  .val 0, .val 0]),
   (2022, [.val 0, .val (54 / 5),  .val 0, .val 0]),
   (2023, [.val 0, .val (109 / 10), .val 0, .val 0])]

/-- C4 counterexample: on `roeProfileMixed`, whose Q4 slots are the
spec's passing list (mean 10.88, std below 2) and whose Q2 slots are
the spec's failing list, the claim predicts a pass (it reads the
full-year Q4 slot) but `roe_distrub` reads slot index 1 — the
half-year Q2 slot — collects [18, 3, 15, 5, 20] and fails on the
dispersion test. -/
theorem C4_counterexample :
    roe_distrub 2025 2023 roeProfileMixed = .ok (false, [18, 3, 15, 5, 20])
    ∧ roe_check_spec 2025 2023 roeProfileMixed =
        (true, [109 / 10, 54 / 5, 56 / 5, 21 / 2, 11])
    ∧ (false : Bool) ≠ true := by
  refine ⟨?_, ?_, by simp⟩
  · norm_num [roe_distrub, roe_collect, roeProfileMixed, zlookup, List.find?,
      listMean, listVar]
  · norm_num [roe_check_spec, roeProfileMixed, zlookup, List.find?,
      listMean, listVar]

/-- C4 (amended): `roe_distrub` collects the half-year (index 1, month
06) slot — not the Q4 slot — of each of the 5 years ending at the
evaluation year; with all five slots present it returns the collected
list and passes exactly when its mean is at least 10 and its
population variance at most 4 (standard deviation at most 2); and
whenever the collection yields fewer than 3 values, the check fails
with an empty supporting list. -/
theorem C4_roe_stability (thisYear YEAR : ℤ) (profile : List (ℤ × List RVal))
    (l0 l1 l2 l3 l4 : List RVal) (v0 v1 v2 v3 v4 : ℚ)
    (hY : YEAR < thisYear)
    (h0 : zlookup profile (YEAR - 0) = some l0) (g0 : l0.get? 1 = some (.val v0))
    (h1 : zlookup profile (YEAR - 1) = some l1) (g1 : l1.get? 1 = some (.val v1))
    (h2 : zlookup profile (YEAR - 2) = some l2) (g2 : l2.get? 1 = some (.val v2))
    (h3 : zlookup profile (YEAR - 3) = some l3) (g3 : l3.get? 1 = some (.val v3))
    (h4 : zlookup profile (YEAR - 4) = some l4) (g4 : l4.get? 1 = some (.val v4)) :
    roe_distrub thisYear YEAR profile =
      .ok ((decide (10 ≤ listMean [v0, v1, v2, v3, v4])
            && decide (listVar [v0, v1, v2, v3, v4] ≤ 4)), [v0, v1, v2, v3, v4])
    ∧ (∀ p2 l, roe_collect YEAR p2 [0, 1, 2, 3, 4] = .ok l → l.length < 3 →
        roe_distrub thisYear YEAR p2 = .ok (false, [])) := by
  constructor
  · have n0 : ¬ l0.length = 0 := by rcases List.get?_eq_some.mp g0 with ⟨hlt, _⟩; omega
    have n1 : ¬ l1.length = 0 := by rcases List.get?_eq_some.mp g1 with ⟨hlt, _⟩; omega
    have n2 : ¬ l2.length = 0 := by rcases List.get?_eq_some.mp g2 with ⟨hlt, _⟩; omega
    have n3 : ¬ l3.length = 0 := by rcases List.get?_eq_some.mp g3 with ⟨hlt, _⟩; omega
    have n4 : ¬ l4.length = 0 := by rcases List.get?_eq_some.mp g4 with ⟨hlt, _⟩; omega
    have hcol : roe_collect YEAR profile [0, 1, 2, 3, 4] = .ok [v0, v1, v2, v3, v4] := by
      simp only [roe_collect, h0, g0, h1, g1, h2, g2, h3, g3, h4, g4,
        n0, n1, n2, n3, n4, if_false]
    unfold roe_distrub
    rw [if_pos hY, hcol]
    dsimp only
    rw [if_neg (by norm_num)]
    by_cases hm : listMean [v0, v1, v2, v3, v4] < 10
    · rw [if_pos hm]
      rw [decide_eq_false (not_le.mpr hm)]
      simp
    · rw [if_neg hm]
      by_cases hv : 4 < listVar [v0, v1, v2, v3, v4]
      · rw [if_pos hv]
        rw [decide_eq_false (not_le.mpr hv), decide_eq_true (not_lt.mp hm)]
        simp
      · rw [if_neg hv]
        rw [decide_eq_true (not_lt.mp hm), decide_eq_true (not_lt.mp hv)]
        simp
  · intro p2 l hcol2 hlen
    unfold roe_distrub
    rw [if_pos hY, hcol2]
    dsimp only
    rw [if_pos hlen]

/-- C4 witness: the amended statement at `roeProfileStable` (index-1
slots carry the spec's stable list, which passes), and at the empty
profile (no observations, hence a fail with empty supporting list). -/
theorem C4_roe_stability_witness :
    roe_distrub 2025 2023 roeProfileStable =
      .ok (true, [109 / 10, 54 / 5, 56 / 5, 21 / 2, 11])
    ∧ roe_distrub 2025 2023 [] = .ok (false, []) := by
  have h := C4_roe_stability 2025 2023 roeProfileStable
    [.val 0, .val (109 / 10), .val 0, .val 0]
    [.val 0, .val (54 / 5), .val 0, .val 0]
    [.val 0, .val (56 / 5), .val 0, .val 0]
    [.val 0, .val (21 / 2), .val 0, .val 0]
    [.val 0, .val 11, .val 0, .val 0]
    (109 / 10) (54 / 5) (56 / 5) (21 / 2) 11
    (by norm_num) rfl rfl rfl rfl rfl rfl rfl rfl rfl rfl
  constructor
  · rw [h.1]
    norm_num [listMean, listVar]
  · exact h.2 [] [] rfl (by norm_num)

/-! ## Claim C5: indicator lookup with an absent label -/

/-- The row-selection fold keeps its accumulator when no row label
matches, for any enumeration start index. -/
theorem foldl_enumFrom_no_match (ind : String) :
    ∀ (l : List Row) (n acc : ℕ), (∀ r ∈ l, r.label ≠ ind) →
      (List.enumFrom n l).foldl
        (fun acc e => if e.2.label = ind then e.1 else acc) acc = acc
  | [], _, _, _ => rfl
  | r :: t, n, acc, h => by
    simp only [List.enumFrom, List.foldl_cons]
    rw [if_neg (h r (by simp))]
    exact foldl_enumFrom_no_match ind t (n + 1) acc (fun x hx => h x (by simp [hx]))

/-- C5 counterexample: a table whose rows are labelled NetProfit and
Cost, queried for the absent indicator EPS, yields the NetProfit row —
the table's row 0, data belonging to a different indicator — rather
than an empty series. -/
theorem C5_counterexample :
    get_indicator_data [⟨"NetProfit", [some 1]⟩, ⟨"Cost", [some 2]⟩] "EPS" =
      .ok ⟨"NetProfit", [some 1]⟩
    ∧ "NetProfit" ≠ "EPS" := by
  constructor
  · rfl
  · decide

/-- C5 (amended): when the fetched table contains no row whose label
equals the requested indicator exactly, the lookup returns the table's
first row (the row at index 0) — data belonging to a different
indicator — without raising; an empty table raises instead. -/
theorem C5_absent_indicator (table : Table) (r0 : Row) (rest : List Row)
    (ind : String) (hne : table = r0 :: rest)
    (habs : ∀ r ∈ table, r.label ≠ ind) :
    get_indicator_data table ind = .ok r0 ∧ r0.label ≠ ind := by
  subst hne
  have hidx : indicatorRowIndex (r0 :: rest) ind = 0 := by
    unfold indicatorRowIndex
    unfold List.enum
    exact foldl_enumFrom_no_match ind (r0 :: rest) 0 0 habs
  refine ⟨?_, habs r0 (by simp)⟩
  unfold get_indicator_data
  rw [hidx]
  rfl

/-- C5 witness: the amended statement at the one-row table labelled
Alpha queried for Beta. -/
theorem C5_absent_indicator_witness :
    get_indicator_data [⟨"Alpha", []⟩] "Beta" = .ok ⟨"Alpha", []⟩
    ∧ ("Alpha" : String) ≠ "Beta" := by
  exact C5_absent_indicator [⟨"Alpha", []⟩] ⟨"Alpha", []⟩ [] "Beta" rfl
    (by intro r hr; rw [List.mem_singleton] at hr; subst hr; decide)

/-! ## Claim C6: zero divisors in the valuation computations -/

/-- The PEG loop cannot raise when every recorded growth rate is
nonzero. -/
theorem peg_loop_ok (rs : List (ℕ × ℚ)) (hnz : ∀ e ∈ rs, e.2 ≠ 0) :
    ∀ (pes : List ((ℕ × ℕ) × ℚ)) (acc : List (ℕ × ℚ)),
      ∃ out, peg_loop rs acc pes = .ok out
  | [], acc => ⟨acc, rfl⟩
  | ((y, m), pe) :: rest, acc => by
    cases hl : alookup rs y with
    | none =>
      obtain ⟨out, hout⟩ := peg_loop_ok rs hnz rest acc
      exact ⟨out, by simp only [peg_loop, hl]; exact hout⟩
    | some g =>
      have hg : g ≠ 0 := by
        rcases Option.map_eq_some'.mp hl with ⟨a, ha, hag⟩
        have := hnz a (List.mem_of_find?_eq_some ha)
        rw [← hag]
        exact this
      obtain ⟨out, hout⟩ := peg_loop_ok rs hnz rest (ainsert acc y (pe / g))
      exact ⟨out, by simp only [peg_loop, hl, if_neg hg]; exact hout⟩

/-- C6 counterexample: net profit 10 in both 2021 and 2022 gives a
year-over-year growth of exactly 0 for 2022; computing the PEG of the
2022 PE entry then raises an uncaught ZeroDivisionError instead of
omitting that year's PEG. -/
theorem C6_counterexample :
    get_historical_peg [(2021, 12, 10), (2022, 12, 10)] [((2022, 12), 15)] = .exn
    ∧ (PyR.exn : PyR (Option (List (ℕ × ℚ)))) ≠ .ok none := by
  constructor
  · norm_num [get_historical_peg, annual_profits, sortByYear, insByYear,
      List.filter, ratio_loop, peg_loop, alookup, ainsert, List.find?]
  · simp

/-- C6 (amended): the historical-PE computation wraps its divisions in
a catch, so a zero-EPS division discards the whole mapping (returns
the empty dict) and never raises; the PEG computation has no such
guard — it raises on a zero growth-rate divisor — but whenever every
recorded growth rate is nonzero it returns normally, with years
lacking growth data omitted. -/
theorem C6_division_guards (priceOf : ℕ × ℕ → Option ℚ)
    (hist : List (ℕ × ℕ × Option ℚ))
    (ph : List (ℕ × ℕ × ℚ)) (pes : List ((ℕ × ℕ) × ℚ))
    (fy : ℕ) (fp : ℚ) (restA : List (ℕ × ℚ)) (rs : List (ℕ × ℚ))
    (hA : annual_profits ph = (fy, fp) :: restA)
    (hr : ratio_loop fy fp [] ((fy, fp) :: restA) = .ok rs)
    (hnz : ∀ e ∈ rs, e.2 ≠ 0) :
    (pe_ratios_loop priceOf [] hist = .exn →
      get_historical_pe_ratios priceOf hist = [])
    ∧ ∃ pegs, get_historical_peg ph pes = .ok (some pegs) := by
  constructor
  · intro hx
    unfold get_historical_pe_ratios
    rw [hx]
  · have hne : ¬ ph.isEmpty = true := by
      intro hc
      rw [List.isEmpty_iff] at hc
      rw [hc] at hA
      simp [annual_profits, sortByYear, List.filter] at hA
    obtain ⟨pegs, hpl⟩ := peg_loop_ok rs hnz pes []
    refine ⟨pegs, ?_⟩
    unfold get_historical_peg
    rw [if_neg hne, hA]
    dsimp only
    rw [hr]
    dsimp only
    rw [hpl]

/-- C6 witness: the amended statement instantiated with a zero-EPS
annual entry (historical PE comes back empty, no exception) and a
profit series 10 → 20 (growth 100, nonzero) with one PE entry (PEG
returned normally). -/
theorem C6_division_guards_witness :
    get_historical_pe_ratios (fun _ => some 10) [(2021, 12, some 0)] = []
    ∧ ∃ pegs, get_historical_peg [(2021, 12, 10), (2022, 12, 20)]
        [((2022, 12), 30)] = .ok (some pegs) := by
  have h := C6_division_guards (fun _ => some 10) [(2021, 12, some 0)]
    [(2021, 12, 10), (2022, 12, 20)] [((2022, 12), 30)]
    2021 10 [(2022, 20)] [(2022, 100)]
    (by norm_num [annual_profits, sortByYear, insByYear, List.filter])
    (by norm_num [ratio_loop, ainsert])
    (by intro e he; fin_cases he; norm_num)
  exact ⟨h.1 (by norm_num [pe_ratios_loop]), h.2⟩

/-! ## Claim C7: the price resolver's window and fallback -/

/-- C7 counterexample: for target date 2024-12-01 the code's first
window start is (2024, 12, -1) — the same-month day underflows to -1 —
whereas two calendar days before the target is 2024-11-29; the stated
window is therefore not requested for first-of-month targets. -/
theorem C7_counterexample :
    startWindow ⟨2024, 12, 1⟩ = (2024, 12, -1)
    ∧ twoCalendarDaysBefore ⟨2024, 12, 1⟩ = ⟨2024, 11, 29⟩
    ∧ startWindow ⟨2024, 12, 1⟩ ≠
        ((2024 : ℕ), (11 : ℕ), (29 : ℤ)) := by
  decide

/-- C7 (amended): for target days at least 3 the first requested
window does start two calendar days before the target (for days 1-2
the start day underflows within the month instead); an answered first
window returns its last close; an empty first window is retried
exactly once from the first day of the target's month, whose answer is
returned, whose emptiness yields None, and whose raised error yields
None; a raised first fetch yields None without a retry.  The resolver
never raises for a missing price. -/
theorem C7_price_fallback (fetch : ℕ × ℕ × ℤ → TDate → String → FetchR)
    (y m d : ℕ) (adj : String) (hd : 3 ≤ d) :
    (startWindow ⟨y, m, d⟩ =
      ((twoCalendarDaysBefore ⟨y, m, d⟩).y, (twoCalendarDaysBefore ⟨y, m, d⟩).m,
        ((twoCalendarDaysBefore ⟨y, m, d⟩).d : ℤ)))
    ∧ (∀ p, fetch (startWindow ⟨y, m, d⟩) ⟨y, m, d⟩ adj = .data p →
        get_price fetch ⟨y, m, d⟩ adj = some p)
    ∧ (fetch (startWindow ⟨y, m, d⟩) ⟨y, m, d⟩ adj = .empty →
        (∀ p, fetch (y, m, (1 : ℤ)) ⟨y, m, d⟩ adj = .data p →
          get_price fetch ⟨y, m, d⟩ adj = some p)
        ∧ (fetch (y, m, (1 : ℤ)) ⟨y, m, d⟩ adj = .empty →
            get_price fetch ⟨y, m, d⟩ adj = none)
        ∧ (fetch (y, m, (1 : ℤ)) ⟨y, m, d⟩ adj = .raise →
            get_price fetch ⟨y, m, d⟩ adj = none))
    ∧ (fetch (startWindow ⟨y, m, d⟩) ⟨y, m, d⟩ adj = .raise →
        get_price fetch ⟨y, m, d⟩ adj = none) := by
  refine ⟨?_, ?_, ?_, ?_⟩
  · have h1 : prevDay ⟨y, m, d⟩ = ⟨y, m, d - 1⟩ := by
      unfold prevDay
      rw [if_neg (by omega : ¬ d = 1)]
    have h2 : prevDay ⟨y, m, d - 1⟩ = ⟨y, m, d - 1 - 1⟩ := by
      unfold prevDay
      rw [if_neg (by omega : ¬ d - 1 = 1)]
    unfold twoCalendarDaysBefore startWindow
    rw [h1, h2]
    simp only [Prod.mk.injEq]
    refine ⟨trivial, trivial, ?_⟩
    omega
  · intro p hp
    unfold get_price
    rw [hp]
  · intro he
    refine ⟨?_, ?_, ?_⟩
    · intro p hp
      unfold get_price
      rw [he, hp]
    · intro h2
      unfold get_price
      rw [he, h2]
    · intro h2
      unfold get_price
      rw [he, h2]
  · intro hr
    unfold get_price
    rw [hr]

/-- C7 witness: the amended statement at date 2024-12-15 — a provider
answering 7 yields 7, and a provider always returning an empty frame
yields None after the single widened retry. -/
theorem C7_price_fallback_witness :
    get_price (fun _ _ _ => .data 7) ⟨2024, 12, 15⟩ "qfq" = some 7
    ∧ get_price (fun _ _ _ => .empty) ⟨2024, 12, 15⟩ "" = none := by
  have h1 := C7_price_fallback (fun _ _ _ => .data 7) 2024 12 15 "qfq" (by norm_num)
  have h2 := C7_price_fallback (fun _ _ _ => .empty) 2024 12 15 "" (by norm_num)
  exact ⟨h1.2.1 7 rfl, (h2.2.2.1 rfl).2.1 rfl⟩

/-! ## Claim C8: the indicator-store cache -/

/-- Looking up the key just inserted into a Python dict returns the
inserted table. -/
theorem slookup_dictInsert (l : List (String × Table)) (k : String) (v : Table) :
    slookup (dictInsert l k v) k = some v := by
  induction l with
  | nil => simp [dictInsert, slookup, List.find?]
  | cons e rest ih =>
    by_cases h : e.1 = k
    · simp [dictInsert, slookup, List.find?, h]
    · simp only [dictInsert, if_neg h]
      simp only [slookup, List.find?] at ih ⊢
      rw [decide_eq_false h]
      exact ih

/-- C8: with a symbol not yet cached, a provider answer that is the
empty table yields no data, leaves the store state (cache and fetched
set) unchanged, and the provider was called — so the next request for
the symbol hits the provider again; a non-empty provider table is
returned and cached, and every subsequent request for that symbol
(under any provider behaviour) returns the cached table without a
provider call and without changing the state. -/
theorem C8_cache (provider : Provider) (st : FDState) (sym : String)
    (hs : sym ≠ "") (hnc : slookup st.data_cache sym = none) :
    (provider sym = .ok (some []) →
      get_financial_data provider st sym = (none, st, true))
    ∧ (∀ t : Table, t ≠ [] → provider sym = .ok (some t) →
        get_financial_data provider st sym =
          (some t, ⟨dictInsert st.data_cache sym t,
                    st.fetched_symbols ++ [sym]⟩, true)
        ∧ ∀ provider2 : Provider,
            get_financial_data provider2
              ⟨dictInsert st.data_cache sym t, st.fetched_symbols ++ [sym]⟩ sym =
            (some t, ⟨dictInsert st.data_cache sym t,
                      st.fetched_symbols ++ [sym]⟩, false)) := by
  constructor
  · intro hp
    unfold get_financial_data
    rw [if_neg hs, hnc, hp]
    rfl
  · intro t ht hp
    constructor
    · unfold get_financial_data
      rw [if_neg hs, hnc, hp]
      dsimp only
      rw [if_neg (by simpa [List.isEmpty_iff] using ht)]
    · intro provider2
      unfold get_financial_data
      rw [if_neg hs]
      dsimp only
      rw [slookup_dictInsert]

/-- C8 witness: starting from the empty store, an empty provider table
is not cached (state unchanged, provider called); a one-row table is
returned and cached; and the follow-up request returns the cached
table without calling the (now always-raising) provider. -/
theorem C8_cache_witness :
    get_financial_data (fun _ => .ok (some [])) ⟨[], []⟩ "s1" = (none, ⟨[], []⟩, true)
    ∧ get_financial_data (fun _ => .ok (some [⟨"A", []⟩])) ⟨[], []⟩ "s1" =
        (some [⟨"A", []⟩], ⟨[("s1", [⟨"A", []⟩])], ["s1"]⟩, true)
    ∧ get_financial_data (fun _ => .exn) ⟨[("s1", [⟨"A", []⟩])], ["s1"]⟩ "s1" =
        (some [⟨"A", []⟩], ⟨[("s1", [⟨"A", []⟩])], ["s1"]⟩, false) := by
  have h1 := C8_cache (fun _ => .ok (some [])) ⟨[], []⟩ "s1" (by decide) rfl
  have h2 := C8_cache (fun _ => .ok (some [⟨"A", []⟩])) ⟨[], []⟩ "s1" (by decide) rfl
  have hb := h2.2 [⟨"A", []⟩] (by simp) rfl
  refine ⟨h1.1 rfl, ?_, ?_⟩
  · simpa [dictInsert] using hb.1
  · simpa [dictInsert] using hb.2 (fun _ => .exn)

/-! ## Claim C9: the profit calculator -/

/-- C9 counterexample: entry year 2020 (current year 2025) with a base
price of exactly 0 and a next-year price present: the code raises an
uncaught ZeroDivisionError instead of returning (0, 0). -/
theorem C9_counterexample :
    cal_profit 2025 (fun q => q) 2020 [(2020, some 0), (2021, some 5)] = .exn
    ∧ (PyR.exn : PyR (ℚ × Option ℚ)) ≠ .ok (0, some 0) := by
  constructor
  · rfl
  · simp

/-- C9 (amended): for an entry year at least two years before the
current year with non-null prices recorded for it and the following
two years and a nonzero base price, the calculator returns the
one-year simple return (next − base) / base * 100 together with the
two-year compound rate (sqrt(price2 / base) − 1) * 100 (math.sqrt
modelled by the function argument, pinned to the nonnegative square
root); when the entry-year price (or the next price) is null, it
returns (0, 0); for the year immediately before the current year only
the one-year return is produced.  A zero base price, by contrast,
raises. -/
theorem C9_cal_profit (thisYear : ℕ) (sqrtFn : ℚ → ℚ)
    (YEAR : ℕ) (prices : List (ℕ × Option ℚ)) (p np nnp : ℚ)
    (hY : YEAR + 2 ≤ thisYear)
    (hp0 : (prices.find? (fun e => decide (e.1 = YEAR))).map (fun e => e.2) = some (some p))
    (hp1 : (prices.find? (fun e => decide (e.1 = YEAR + 1))).map (fun e => e.2) = some (some np))
    (hp2 : (prices.find? (fun e => decide (e.1 = YEAR + 2))).map (fun e => e.2) = some (some nnp))
    (hpz : p ≠ 0)
    (hsq : sqrtFn (nnp / p) * sqrtFn (nnp / p) = nnp / p ∧ 0 ≤ sqrtFn (nnp / p))
    (YEAR2 : ℕ) (prices2 : List (ℕ × Option ℚ)) (v2 : Option ℚ)
    (hY2 : YEAR2 < thisYear)
    (hq0 : (prices2.find? (fun e => decide (e.1 = YEAR2))).map (fun e => e.2) = some none)
    (hq1 : (prices2.find? (fun e => decide (e.1 = YEAR2 + 1))).map (fun e => e.2) = some v2)
    (YEAR3 : ℕ) (prices3 : List (ℕ × Option ℚ)) (p3 np3 : ℚ)
    (hY3 : YEAR3 + 1 = thisYear)
    (hr0 : (prices3.find? (fun e => decide (e.1 = YEAR3))).map (fun e => e.2) = some (some p3))
    (hr1 : (prices3.find? (fun e => decide (e.1 = YEAR3 + 1))).map (fun e => e.2) = some (some np3))
    (hpz3 : p3 ≠ 0) :
    cal_profit thisYear sqrtFn YEAR prices =
      .ok ((np - p) / p * 100, some ((sqrtFn (nnp / p) - 1) * 100))
    ∧ cal_profit thisYear sqrtFn YEAR2 prices2 = .ok (0, some 0)
    ∧ cal_profit thisYear sqrtFn YEAR3 prices3 =
        .ok ((np3 - p3) / p3 * 100, none) := by
  refine ⟨?_, ?_, ?_⟩
  · unfold cal_profit
    rw [if_neg (by omega), hp0]
    dsimp only
    rw [hp1]
    dsimp only
    rw [if_neg hpz, if_neg (by omega), hp2]
  · unfold cal_profit
    rw [if_neg (by omega), hq0]
    dsimp only
    rw [hq1]
  · unfold cal_profit
    rw [if_neg (by omega), hr0]
    dsimp only
    rw [hr1]
    dsimp only
    rw [if_neg hpz3, if_pos (by omega)]

/-- C9 witness: entry price 100, next price 110, price two years later
121 (current year 2025, sqrt oracle 11/10) gives the one-year return
10 and the spec's example two-year compound rate 10; a null entry
price gives (0, 0); and entry year 2024 gives only the one-year
return. -/
theorem C9_cal_profit_witness :
    cal_profit 2025 (fun _ => 11 / 10) 2020
      [(2020, some 100), (2021, some 110), (2022, some 121)] = .ok (10, some 10)
    ∧ cal_profit 2025 (fun _ => 11 / 10) 2020 [(2020, none), (2021, some 5)] =
        .ok (0, some 0)
    ∧ cal_profit 2025 (fun _ => 11 / 10) 2024
        [(2024, some 100), (2025, some 110)] = .ok (10, none) := by
  have h := C9_cal_profit 2025 (fun _ => 11 / 10) 2020
    [(2020, some 100), (2021, some 110), (2022, some 121)] 100 110 121
    (by omega) rfl rfl rfl (by norm_num) (by constructor <;> norm_num)
    2020 [(2020, none), (2021, some 5)] (some 5) (by omega) rfl rfl
    2024 [(2024, some 100), (2025, some 110)] 100 110 rfl rfl rfl (by norm_num)
  refine ⟨?_, h.2.1, ?_⟩
  · rw [h.1]
    norm_num
  · rw [h.2.2]
    norm_num

end StockVal
